import Mathlib

/-!
# Verification of the interview-session core of `ai-mock-interview`

Shallow embedding of the session logic of `src/components/Agent.tsx`
(call state, transcript accumulation, error classification, the
Finished-exit effect) and of `createFeedback` from
`src/lib/actions/general.action.ts` (feedback synthesis orchestration),
together with proofs about the specified behaviour.

The React component is modelled as a transition system: each external
event (a `vapi` callback or a user click) first runs its handler, which
updates the component state, and then — exactly when one of the
dependencies of the Finished-exit `useEffect` changed — runs that
effect on the new state.  `createFeedback` is modelled with its two
collaborators (structured generation, Firestore write) as explicit
outcome parameters, and the `feedback` collection as an explicit store.
-/

namespace MockInterview

/-- The CallStatus enum of `Agent.tsx` (INACTIVE/CONNECTING/ACTIVE/FINISHED). -/
inductive CallStatus
  | inactive
  | connecting
  | active
  | finished
deriving DecidableEq, Repr

/-- The SavedMessage shape of `Agent.tsx`: one transcript entry (role, content). -/
structure SavedMessage where
  role : String
  content : String
deriving DecidableEq, Repr

/-- The `type` prop of the `Agent` component: `generate` or `interview`. -/
inductive Mode
  | generate
  | interview
deriving DecidableEq, Repr

/-- Navigation destinations passed to `router.push`. -/
inductive Dest
  | home
  | feedbackPage (interviewId : String)
deriving DecidableEq, Repr

/-- Error taxonomy of the specification (§3, §7).  The source stores only
the surfaced message string; the kind names the branch of `onError` that
produced it. -/
inductive ErrKind
  | remoteTermination
  | transportFailure
  | unknown
deriving DecidableEq, Repr

/-- A classified session error: kind plus the user-facing message. -/
structure SessionError where
  kind : ErrKind
  message : String
deriving DecidableEq, Repr

/-- Substring test on character lists, used to embed the JavaScript
includes method on strings. -/
def containsSub (needle : List Char) : List Char → Bool
  | [] => needle.isEmpty
  | c :: t => needle.isPrefixOf (c :: t) || containsSub needle t

/-- JavaScript case-sensitive substring test: hay includes needle. -/
def strIncludes (hay needle : String) : Bool :=
  containsSub needle.data hay.data

/-- Embedding of the classification in the `onError` handler of
`Agent.tsx` (lines 79–99): JS truthiness of `error.message` (present and
non-empty), then the two `includes` tests, first match wins.  The kind
labels the branch per the spec taxonomy; the source records only the
message. -/
def classifyError : Option String → SessionError
  | some m =>
      if m ≠ "" then
        if strIncludes m "Meeting has ended" || strIncludes m "Meeting ended" then
          ⟨ErrKind.remoteTermination,
            "The interview session ended unexpectedly. Please try again."⟩
        else
          ⟨ErrKind.transportFailure,
            "An error occurred: " ++ m ++ ". Please try again."⟩
      else
        ⟨ErrKind.unknown, "An unexpected error occurred. Please try again."⟩
  | none => ⟨ErrKind.unknown, "An unexpected error occurred. Please try again."⟩

/-- A raw `message` payload from the voice engine
(`{type, transcriptType, role, transcript}`). -/
structure RawMessage where
  type : String
  transcriptType : String
  role : String
  transcript : String
deriving DecidableEq, Repr

/-- The final-transcript filter of `onMessage` (`Agent.tsx` lines 67–73):
the entry appended for a message event, if any. -/
def finalTranscriptEntry (m : RawMessage) : Option SavedMessage :=
  if m.type = "transcript" ∧ m.transcriptType = "final" then
    some ⟨m.role, m.transcript⟩
  else none

/-- External events driving the `Agent` component: the registered `vapi`
callbacks, the "Try Again" click, and the two halves of `handleCall`
(its synchronous head, and the `catch` branch when `vapi.start`
rejects before a remote session is established). -/
inductive Event
  | callStart
  | callEnd
  | message (m : RawMessage)
  | speechStart
  | speechEnd
  | errorEv (message : Option String)
  | tryAgainClick
  | callInvoke
  | callStartFailed (errMsg : Option String)
deriving DecidableEq, Repr

/-- Per-render-constant inputs of the component: the mode and interview
id props, and the observed outcome of `createFeedback` as seen by
`handleGenerateFeedback` (`fbOk` = `success && id`). -/
structure AgentConfig where
  mode : Mode
  interviewId : String
  fbOk : Bool
deriving DecidableEq, Repr

/-- The component state (`callStatus`, `messages`, `errorMessage`,
`isSpeaking`) extended with two observers: the number of
`createFeedback` invocations and the log of `router.push` calls. -/
structure AgentState where
  callStatus : CallStatus
  messages : List SavedMessage
  errorMessage : Option String
  isSpeaking : Bool
  feedbackCalls : Nat
  nav : List Dest
deriving DecidableEq, Repr

/-- Initial component state. -/
def initialState : AgentState :=
  ⟨CallStatus.inactive, [], none, false, 0, []⟩

/-- Destination pushed by `handleGenerateFeedback` after `createFeedback`
resolves: the feedback page when `success && id`, otherwise home. -/
def feedbackDest (cfg : AgentConfig) : Dest :=
  if cfg.fbOk then Dest.feedbackPage cfg.interviewId else Dest.home

/-- Embedding of `handleGenerateFeedback` (`Agent.tsx` lines 125–140):
invokes `createFeedback` (counted) and pushes the resulting destination. -/
def handleGenerateFeedback (cfg : AgentConfig) (s : AgentState) : AgentState :=
  { s with
    feedbackCalls := s.feedbackCalls + 1
    nav := s.nav ++ [feedbackDest cfg] }

/-- The Finished-exit `useEffect` body (`Agent.tsx` lines 146–161):
on `FINISHED`, generate mode navigates home; interview mode generates
feedback when the transcript is non-empty, navigates home when it is
empty with no error, and otherwise stays on the error screen. -/
def finishedEffect (cfg : AgentConfig) (s : AgentState) : AgentState :=
  if s.callStatus = CallStatus.finished then
    match cfg.mode with
    | Mode.generate => { s with nav := s.nav ++ [Dest.home] }
    | Mode.interview =>
        if 0 < s.messages.length then
          handleGenerateFeedback cfg s
        else if s.errorMessage = none then
          { s with nav := s.nav ++ [Dest.home] }
        else s
  else s

/-- The event handlers of `Agent.tsx`: `onCallStart`, `onCallEnd`,
`onMessage`, `onSpeechStart`, `onSpeechEnd`, `onError`, the "Try Again"
button `onClick` (lines 258–262), the synchronous head of `handleCall`
(line 168) and its `catch` branch (lines 194–199). -/
def handleEvent (e : Event) (s : AgentState) : AgentState :=
  match e with
  | Event.callStart => { s with callStatus := CallStatus.active }
  | Event.callEnd => { s with callStatus := CallStatus.finished }
  | Event.message m =>
      match finalTranscriptEntry m with
      | some entry => { s with messages := s.messages ++ [entry] }
      | none => s
  | Event.speechStart => { s with isSpeaking := true }
  | Event.speechEnd => { s with isSpeaking := false }
  | Event.errorEv msg =>
      { s with
        errorMessage := some (classifyError msg).message
        callStatus := CallStatus.finished }
  | Event.tryAgainClick =>
      { s with
        errorMessage := none
        callStatus := CallStatus.inactive
        messages := [] }
  | Event.callInvoke => { s with callStatus := CallStatus.connecting }
  | Event.callStartFailed errMsg =>
      { s with
        errorMessage :=
          some ("Failed to start the interview. Please try again. " ++ errMsg.getD "")
        callStatus := CallStatus.inactive }

/-- Whether the dependency array `[messages, callStatus, type, userId,
errorMessage, router]` of the Finished-exit effect changed between two
states (props are constant, so only the three state entries matter;
React compares with `Object.is`, value equality for these). -/
def depsChanged (s t : AgentState) : Bool :=
  decide (¬ (s.callStatus = t.callStatus ∧ s.messages = t.messages ∧
    s.errorMessage = t.errorMessage))

/-- One event step of the component: run the handler, re-render, and run
the Finished-exit effect exactly when its dependencies changed. -/
def step (cfg : AgentConfig) (s : AgentState) (e : Event) : AgentState :=
  if depsChanged s (handleEvent e s) then finishedEffect cfg (handleEvent e s)
  else handleEvent e s

/-- A run of the component over a sequence of delivered events. -/
def run (cfg : AgentConfig) (s : AgentState) : List Event → AgentState
  | [] => s
  | e :: es => run cfg (step cfg s e) es

/-! ## The feedback synthesis orchestrator (`createFeedback`) -/

/-- The CreateFeedbackParams shape: interview id, user id and transcript. -/
structure FeedbackRequest where
  interviewId : String
  userId : String
  transcript : List SavedMessage
deriving DecidableEq, Repr

/-- One category score of the generated feedback object. -/
structure CategoryScore where
  name : String
  score : Nat
  comment : String
deriving DecidableEq, Repr

/-- A generation output that passed schema validation
(`feedbackSchema`): the five fields destructured from the result of
`generateObject`. -/
structure FeedbackObject where
  totalScore : Nat
  categoryScores : List CategoryScore
  strengths : List String
  areasForImprovement : List String
  finalAssessment : String
deriving DecidableEq, Repr

/-- The document written to the `feedback` collection: the generated
fields plus `interviewId`, `userId` and the write-time `createdAt`. -/
structure FeedbackRecord where
  interviewId : String
  userId : String
  totalScore : Nat
  categoryScores : List CategoryScore
  strengths : List String
  areasForImprovement : List String
  finalAssessment : String
  createdAt : String
deriving DecidableEq, Repr

/-- The record that `createFeedback` hands to the feedback-collection
write. -/
def mkFeedbackRecord (req : FeedbackRequest) (obj : FeedbackObject)
    (now : String) : FeedbackRecord :=
  ⟨req.interviewId, req.userId, obj.totalScore, obj.categoryScores,
    obj.strengths, obj.areasForImprovement, obj.finalAssessment, now⟩

/-- Embedding of the formattedTranscript computation in `createFeedback`
(general.action.ts lines 116–119): each entry rendered as
`- role: content` followed by a newline, joined with the empty
separator. -/
def formattedTranscript (transcript : List SavedMessage) : String :=
  String.join (transcript.map fun sentence =>
    "- " ++ sentence.role ++ ": " ++ sentence.content ++ "\n")

/-- One transcript entry as the spec renders it: `"- <role>: <text>"`. -/
def renderEntry (s : SavedMessage) : String :=
  "- " ++ s.role ++ ": " ++ s.content

/-- The prompt body as the spec words it (§4.4 step 1): entries rendered
as `"- <role>: <text>"` *joined with newlines*.  Kept separate from
`formattedTranscript` so the two renderings can be compared. -/
def specPromptBody : List SavedMessage → String
  | [] => ""
  | [s] => renderEntry s
  | s :: rest => renderEntry s ++ "\n" ++ specPromptBody rest

/-- Outcome of the structured-generation collaborator on a prompt:
either an object that passed schema validation, or a failure (the call
threw, or its output failed validation). -/
inductive GenOutcome
  | ok (obj : FeedbackObject)
  | failed
deriving DecidableEq, Repr

/-- The `feedback` collection, with the fresh document id assigned by
the persistence collaborator at each `add`. -/
abbrev FeedbackStore := List (Nat × FeedbackRecord)

/-- The add call on the feedback collection: unconditional insert of a
new document under a fresh id (no key on `(interviewId, userId)`). -/
def addFeedbackRecord (store : FeedbackStore) (record : FeedbackRecord) :
    Nat × FeedbackStore :=
  (store.length, store ++ [(store.length, record)])

/-- The value `createFeedback` returns: `{success, feedbackId?}`. -/
structure CreateFeedbackResult where
  success : Bool
  feedbackId : Option Nat
deriving DecidableEq, Repr

/-- One `createFeedback` call observed whole: its return value, the
`feedback` collection afterwards, and how many writes were attempted. -/
structure CreateFeedbackRun where
  result : CreateFeedbackResult
  store : FeedbackStore
  writeAttempts : Nat
deriving DecidableEq, Repr

/-- Embedding of `createFeedback` (general.action.ts lines 111–165).
The whole body runs inside `try`; `gen` is the generation collaborator
applied to the formatted transcript (its `failed` outcome covers both a
thrown call and schema-invalid output), `persistFails` is whether the
Firestore write throws.  Any failure lands in the `catch` branch, which
returns `{success: false}`; the generation step precedes the write, so
a generation failure attempts no write. -/
def createFeedback (req : FeedbackRequest) (gen : String → GenOutcome)
    (persistFails : Bool) (now : String) (store : FeedbackStore) :
    CreateFeedbackRun :=
  match gen (formattedTranscript req.transcript) with
  | GenOutcome.failed => ⟨⟨false, none⟩, store, 0⟩
  | GenOutcome.ok obj =>
      if persistFails then ⟨⟨false, none⟩, store, 1⟩
      else
        let added := addFeedbackRecord store (mkFeedbackRecord req obj now)
        ⟨⟨true, some added.1⟩, added.2, 1⟩

/-! ## Concrete instances used as witnesses and counterexamples -/

/-- An interview-mode configuration with a successful feedback pipeline. -/
def cfgI : AgentConfig := ⟨Mode.interview, "interview-1", true⟩

/-- A generate-mode configuration. -/
def cfgG : AgentConfig := ⟨Mode.generate, "interview-1", true⟩

/-- A finalized transcript message event payload. -/
def finalMsg (role text : String) : RawMessage := ⟨"transcript", "final", role, text⟩

/-- An interview run in which a late finalized message event arrives
after the session already reached FINISHED (tolerated per spec §4.2
concurrency note). -/
def lateMessageEvents : List Event :=
  [Event.callStart,
   Event.message (finalMsg "user" "I know React"),
   Event.callEnd,
   Event.message (finalMsg "assistant" "Good, next question")]

/-- A session that reached FINISHED with an attached error and an empty
transcript. -/
def sFinishedErr : AgentState :=
  ⟨CallStatus.finished, [],
    some "The interview session ended unexpectedly. Please try again.",
    false, 0, []⟩

/-- A session that reached FINISHED with an attached error and a
non-empty transcript. -/
def sFinishedErrMsgs : AgentState :=
  ⟨CallStatus.finished, [⟨"user", "I know React"⟩], some "err", false, 0, []⟩

/-- A concrete feedback request. -/
def reqEx : FeedbackRequest := ⟨"interview-1", "user-1", [⟨"user", "I know React"⟩]⟩

/-- A concrete validated generation output. -/
def objEx : FeedbackObject :=
  ⟨80, [⟨"Communication Skills", 80, "clear"⟩], ["clarity"], ["depth"], "solid"⟩

/-! ## Helper lemmas about the session transition system -/

theorem finishedEffect_callStatus (cfg : AgentConfig) (s : AgentState) :
    (finishedEffect cfg s).callStatus = s.callStatus := by
  unfold finishedEffect handleGenerateFeedback
  repeat' split
  all_goals rfl

theorem finishedEffect_messages (cfg : AgentConfig) (s : AgentState) :
    (finishedEffect cfg s).messages = s.messages := by
  unfold finishedEffect handleGenerateFeedback
  repeat' split
  all_goals rfl

theorem finishedEffect_errorMessage (cfg : AgentConfig) (s : AgentState) :
    (finishedEffect cfg s).errorMessage = s.errorMessage := by
  unfold finishedEffect handleGenerateFeedback
  repeat' split
  all_goals rfl

theorem finishedEffect_of_ne (cfg : AgentConfig) (s : AgentState)
    (h : s.callStatus ≠ CallStatus.finished) : finishedEffect cfg s = s := by
  unfold finishedEffect
  rw [if_neg h]

theorem step_callStatus (cfg : AgentConfig) (s : AgentState) (e : Event) :
    (step cfg s e).callStatus = (handleEvent e s).callStatus := by
  unfold step
  split
  · exact finishedEffect_callStatus cfg _
  · rfl

theorem step_messages (cfg : AgentConfig) (s : AgentState) (e : Event) :
    (step cfg s e).messages = (handleEvent e s).messages := by
  unfold step
  split
  · exact finishedEffect_messages cfg _
  · rfl

theorem step_errorMessage (cfg : AgentConfig) (s : AgentState) (e : Event) :
    (step cfg s e).errorMessage = (handleEvent e s).errorMessage := by
  unfold step
  split
  · exact finishedEffect_errorMessage cfg _
  · rfl

theorem step_eq_handle_of_ne (cfg : AgentConfig) (s : AgentState) (e : Event)
    (h : (handleEvent e s).callStatus ≠ CallStatus.finished) :
    step cfg s e = handleEvent e s := by
  unfold step
  split
  · exact finishedEffect_of_ne cfg _ h
  · rfl

theorem handleEvent_feedbackCalls (e : Event) (s : AgentState) :
    (handleEvent e s).feedbackCalls = s.feedbackCalls := by
  cases e
  case message m => cases h : finalTranscriptEntry m <;> simp [handleEvent, h]
  all_goals rfl

theorem handleEvent_nav (e : Event) (s : AgentState) :
    (handleEvent e s).nav = s.nav := by
  cases e
  case message m => cases h : finalTranscriptEntry m <;> simp [handleEvent, h]
  all_goals rfl

theorem strIncludes_empty_left (n : String) :
    strIncludes "" n = n.data.isEmpty := rfl

theorem ne_empty_of_strIncludes {m n : String} (h : strIncludes m n = true)
    (hn : n.data.isEmpty = false) : m ≠ "" := by
  intro he
  subst he
  rw [strIncludes_empty_left, hn] at h
  exact Bool.false_ne_true h

/-- C3: for every error payload delivered by the voice engine, the
classifier in the onError handler evaluates its rules in order with
first match winning: a message containing the case-sensitive substring
"Meeting has ended" or "Meeting ended" surfaces the remote-termination
text; any other present, non-empty message surfaces
"An error occurred: " ++ message ++ ". Please try again."; an absent or
empty message surfaces the generic text; and in all three cases the
session state is forced to Finished with the surfaced message recorded. -/
theorem C3_error_classifier (m : String) (cfg : AgentConfig) (s : AgentState) :
    ((strIncludes m "Meeting has ended" = true ∨ strIncludes m "Meeting ended" = true) →
      classifyError (some m) =
        ⟨ErrKind.remoteTermination,
          "The interview session ended unexpectedly. Please try again."⟩) ∧
    (m ≠ "" → strIncludes m "Meeting has ended" = false →
      strIncludes m "Meeting ended" = false →
      classifyError (some m) =
        ⟨ErrKind.transportFailure, "An error occurred: " ++ m ++ ". Please try again."⟩) ∧
    classifyError (some "") =
      ⟨ErrKind.unknown, "An unexpected error occurred. Please try again."⟩ ∧
    classifyError none =
      ⟨ErrKind.unknown, "An unexpected error occurred. Please try again."⟩ ∧
    (step cfg s (Event.errorEv (some m))).callStatus = CallStatus.finished ∧
    (step cfg s (Event.errorEv none)).callStatus = CallStatus.finished ∧
    (step cfg s (Event.errorEv (some m))).errorMessage =
      some (classifyError (some m)).message := by
  refine ⟨?_, ?_, by simp [classifyError], rfl, ?_, ?_, ?_⟩
  · intro h
    have hne : m ≠ "" := by
      rcases h with h | h
      · exact ne_empty_of_strIncludes h rfl
      · exact ne_empty_of_strIncludes h rfl
    rcases h with h | h <;> simp [classifyError, hne, h]
  · intro hne h1 h2
    simp [classifyError, hne, h1, h2]
  · rw [step_callStatus]
    rfl
  · rw [step_callStatus]
    rfl
  · rw [step_errorMessage]
    rfl

/-- Witness for C3 at concrete payloads: one for each classifier rule. -/
theorem C3_error_classifier_witness :
    classifyError (some "Meeting has ended abruptly") =
      ⟨ErrKind.remoteTermination,
        "The interview session ended unexpectedly. Please try again."⟩ ∧
    classifyError (some "network glitch") =
      ⟨ErrKind.transportFailure,
        "An error occurred: " ++ "network glitch" ++ ". Please try again."⟩ :=
  ⟨(C3_error_classifier "Meeting has ended abruptly" cfgI initialState).1
      (Or.inl (by decide)),
    (C3_error_classifier "network glitch" cfgI initialState).2.1
      (by decide) (by decide) (by decide)⟩

/-- C5: a startCall invocation that fails before a remote session is
established passes through Connecting (never Active or Finished), ends
in Idle (INACTIVE), records the start-failure error message for
display, and leaves the transcript, the feedback-invocation count and
the navigation log untouched; afterwards the call button is rendered
again (status is not ACTIVE), so a subsequent startCall is permitted. -/
theorem C5_startCall_failure (cfg : AgentConfig) (s : AgentState) (errMsg : Option String) :
    (step cfg s Event.callInvoke).callStatus = CallStatus.connecting ∧
    (step cfg (step cfg s Event.callInvoke) (Event.callStartFailed errMsg)).callStatus =
      CallStatus.inactive ∧
    (step cfg (step cfg s Event.callInvoke) (Event.callStartFailed errMsg)).errorMessage =
      some ("Failed to start the interview. Please try again. " ++ errMsg.getD "") ∧
    (step cfg (step cfg s Event.callInvoke) (Event.callStartFailed errMsg)).messages =
      s.messages ∧
    (step cfg (step cfg s Event.callInvoke) (Event.callStartFailed errMsg)).feedbackCalls =
      s.feedbackCalls ∧
    (step cfg (step cfg s Event.callInvoke) (Event.callStartFailed errMsg)).nav = s.nav ∧
    (step cfg (step cfg s Event.callInvoke) (Event.callStartFailed errMsg)).callStatus ≠
      CallStatus.active ∧
    (step cfg (step cfg (step cfg s Event.callInvoke) (Event.callStartFailed errMsg))
      Event.callInvoke).callStatus = CallStatus.connecting := by
  have e1 : step cfg s Event.callInvoke = { s with callStatus := CallStatus.connecting } :=
    step_eq_handle_of_ne cfg s Event.callInvoke (by simp [handleEvent])
  have e2 : step cfg { s with callStatus := CallStatus.connecting }
      (Event.callStartFailed errMsg) =
      { s with
        callStatus := CallStatus.inactive
        errorMessage :=
          some ("Failed to start the interview. Please try again. " ++ errMsg.getD "") } :=
    step_eq_handle_of_ne cfg _ (Event.callStartFailed errMsg) (by simp [handleEvent])
  have e3 : step cfg
      { s with
        callStatus := CallStatus.inactive
        errorMessage :=
          some ("Failed to start the interview. Please try again. " ++ errMsg.getD "") }
      Event.callInvoke =
      { s with
        callStatus := CallStatus.connecting
        errorMessage :=
          some ("Failed to start the interview. Please try again. " ++ errMsg.getD "") } :=
    step_eq_handle_of_ne cfg _ Event.callInvoke (by simp [handleEvent])
  rw [e1, e2, e3]
  exact ⟨rfl, rfl, rfl, rfl, rfl, rfl, by simp, rfl⟩

theorem run_messages_over_messages (cfg : AgentConfig) (ms : List RawMessage) :
    ∀ s : AgentState, (run cfg s (ms.map Event.message)).messages =
      s.messages ++ ms.filterMap finalTranscriptEntry := by
  induction ms with
  | nil => intro s; simp [run]
  | cons m tl ih =>
      intro s
      have hmsg : (step cfg s (Event.message m)).messages =
          s.messages ++ (finalTranscriptEntry m).toList := by
        rw [step_messages]
        cases h : finalTranscriptEntry m <;> simp [handleEvent, h]
      simp only [List.map_cons, run]
      rw [ih, hmsg]
      cases h : finalTranscriptEntry m <;>
        simp [List.filterMap_cons, h]

/-- C6: for every sequence of message events delivered by the voice
engine, the transcript snapshot equals exactly the subsequence of
events with type "transcript" and transcriptType "final", appended in
receipt order with role and text preserved verbatim; interim events
never appear and repeated identical utterances are each appended (the
filter keeps duplicates). -/
theorem C6_transcript_accumulator (cfg : AgentConfig) (ms : List RawMessage) :
    (run cfg initialState (ms.map Event.message)).messages =
      ms.filterMap finalTranscriptEntry := by
  rw [run_messages_over_messages cfg ms initialState]
  rfl

theorem finishedEffect_generate (cfg : AgentConfig) (s : AgentState)
    (h : cfg.mode = Mode.generate) :
    finishedEffect cfg s =
      if s.callStatus = CallStatus.finished then { s with nav := s.nav ++ [Dest.home] }
      else s := by
  unfold finishedEffect
  rw [h]

theorem depsUnchanged_callStatus {s t : AgentState}
    (h : ¬ depsChanged s t = true) : s.callStatus = t.callStatus := by
  unfold depsChanged at h
  simp only [decide_eq_true_eq, not_not] at h
  exact h.1

theorem step_generate_inv (cfg : AgentConfig) (h : cfg.mode = Mode.generate)
    (s : AgentState) (e : Event)
    (ih : s.feedbackCalls = 0 ∧ (∀ d ∈ s.nav, d = Dest.home) ∧
      (s.callStatus = CallStatus.finished → s.nav ≠ [])) :
    (step cfg s e).feedbackCalls = 0 ∧
    (∀ d ∈ (step cfg s e).nav, d = Dest.home) ∧
    ((step cfg s e).callStatus = CallStatus.finished → (step cfg s e).nav ≠ []) := by
  obtain ⟨ihc, ihn, ihf⟩ := ih
  have hfc : (handleEvent e s).feedbackCalls = s.feedbackCalls :=
    handleEvent_feedbackCalls e s
  have hnav : (handleEvent e s).nav = s.nav := handleEvent_nav e s
  unfold step
  split
  · rw [finishedEffect_generate cfg _ h]
    by_cases hf : (handleEvent e s).callStatus = CallStatus.finished
    · rw [if_pos hf]
      refine ⟨by simp [hfc, ihc], ?_, ?_⟩
      · intro d hd
        simp only [hnav, List.mem_append, List.mem_singleton] at hd
        rcases hd with hd | hd
        · exact ihn d hd
        · exact hd
      · intro _
        simp [hnav]
    · rw [if_neg hf]
      refine ⟨by simp [hfc, ihc], ?_, fun hfin => absurd hfin hf⟩
      intro d hd
      rw [hnav] at hd
      exact ihn d hd
  · rename_i hd
    have hcs : s.callStatus = (handleEvent e s).callStatus := depsUnchanged_callStatus hd
    refine ⟨by simp [hfc, ihc], ?_, ?_⟩
    · intro d hdm
      rw [hnav] at hdm
      exact ihn d hdm
    · intro hfin
      rw [hnav]
      exact ihf (hcs.trans hfin)

theorem run_generate_inv (cfg : AgentConfig) (h : cfg.mode = Mode.generate)
    (es : List Event) :
    ∀ s : AgentState,
      (s.feedbackCalls = 0 ∧ (∀ d ∈ s.nav, d = Dest.home) ∧
        (s.callStatus = CallStatus.finished → s.nav ≠ [])) →
      ((run cfg s es).feedbackCalls = 0 ∧
        (∀ d ∈ (run cfg s es).nav, d = Dest.home) ∧
        ((run cfg s es).callStatus = CallStatus.finished → (run cfg s es).nav ≠ [])) := by
  induction es with
  | nil => intro s ih; exact ih
  | cons e tl ih =>
      intro s ihs
      exact ih (step cfg s e) (step_generate_inv cfg h s e ihs)

/-- C7: in generate mode the feedback synthesis orchestrator is never
invoked over any event sequence, every navigation performed is to home,
and a session that reached Finished has navigated (to home). -/
theorem C7_generate_mode (cfg : AgentConfig) (h : cfg.mode = Mode.generate)
    (es : List Event) :
    (run cfg initialState es).feedbackCalls = 0 ∧
    (∀ d ∈ (run cfg initialState es).nav, d = Dest.home) ∧
    ((run cfg initialState es).callStatus = CallStatus.finished →
      (run cfg initialState es).nav ≠ []) :=
  run_generate_inv cfg h es initialState
    ⟨rfl, by simp [initialState], by simp [initialState]⟩

/-- Witness for C7 on a concrete generate-mode run that reaches
Finished with a non-empty transcript. -/
theorem C7_generate_mode_witness :
    (run cfgG initialState
      [Event.callStart, Event.message (finalMsg "user" "hello"), Event.callEnd]).feedbackCalls = 0 ∧
    ((run cfgG initialState
      [Event.callStart, Event.message (finalMsg "user" "hello"), Event.callEnd]).callStatus =
        CallStatus.finished →
      (run cfgG initialState
        [Event.callStart, Event.message (finalMsg "user" "hello"), Event.callEnd]).nav ≠ []) :=
  ⟨(C7_generate_mode cfgG rfl _).1, (C7_generate_mode cfgG rfl _).2.2⟩

/-- C1: the claim that createFeedback is invoked exactly once — never
twice — per interview session reaching Finished with a non-empty
transcript fails on the code: a late finalized message event arriving
after Finished re-runs the Finished-exit effect (its dependency array
contains `messages`), invoking createFeedback a second time.  This run
reaches Finished in interview mode with a non-empty transcript and an
invocation count of 2. -/
theorem C1_feedback_invoked_twice :
    (run cfgI initialState lateMessageEvents).callStatus = CallStatus.finished ∧
    (run cfgI initialState lateMessageEvents).messages ≠ [] ∧
    cfgI.mode = Mode.interview ∧
    (run cfgI initialState lateMessageEvents).feedbackCalls = 2 := by
  refine ⟨rfl, by decide, rfl, rfl⟩

/-- C4 counterexample: a transition does leave Finished — clicking
"Try Again" on the terminal error screen moves the same session
instance from Finished to Idle (INACTIVE). -/
theorem C4_counterexample :
    (step cfgI sFinishedErr Event.tryAgainClick).callStatus ≠ CallStatus.finished := by
  decide

/-- C4 amended: Finished is terminal for the engine-driven events —
call-end, error, message and speech events never leave Finished — but a
fresh session is begun on the same instance, not a new one: the
"Try Again" click resets Finished to Idle (clearing transcript and
error), the call button invokes startCall which moves to Connecting,
and a call-start event moves to Active. -/
theorem C4_finished_terminal_for_engine_events (cfg : AgentConfig) (s : AgentState)
    (msg : Option String) (m : RawMessage)
    (h : s.callStatus = CallStatus.finished) :
    (step cfg s Event.callEnd).callStatus = CallStatus.finished ∧
    (step cfg s (Event.errorEv msg)).callStatus = CallStatus.finished ∧
    (step cfg s (Event.message m)).callStatus = CallStatus.finished ∧
    (step cfg s Event.speechStart).callStatus = CallStatus.finished ∧
    (step cfg s Event.speechEnd).callStatus = CallStatus.finished ∧
    (step cfg s Event.tryAgainClick).callStatus = CallStatus.inactive ∧
    (step cfg s Event.tryAgainClick).messages = [] ∧
    (step cfg s Event.tryAgainClick).errorMessage = none ∧
    (step cfg s Event.callInvoke).callStatus = CallStatus.connecting ∧
    (step cfg s Event.callStart).callStatus = CallStatus.active := by
  have hmsg : (step cfg s (Event.message m)).callStatus = CallStatus.finished := by
    rw [step_callStatus]
    cases hm : finalTranscriptEntry m <;> simp [handleEvent, hm, h]
  refine ⟨by rw [step_callStatus]; rfl, by rw [step_callStatus]; rfl, hmsg,
    by rw [step_callStatus]; simp [handleEvent, h],
    by rw [step_callStatus]; simp [handleEvent, h],
    by rw [step_callStatus]; rfl,
    by rw [step_messages]; rfl,
    by rw [step_errorMessage]; rfl,
    by rw [step_callStatus]; rfl,
    by rw [step_callStatus]; rfl⟩

/-- Witness for the amended C4 at a concrete Finished session. -/
theorem C4_finished_terminal_witness :
    (step cfgI sFinishedErr Event.callEnd).callStatus = CallStatus.finished ∧
    (step cfgI sFinishedErr (Event.errorEv (some "boom"))).callStatus = CallStatus.finished ∧
    (step cfgI sFinishedErr (Event.message (finalMsg "user" "late"))).callStatus =
      CallStatus.finished ∧
    (step cfgI sFinishedErr Event.speechStart).callStatus = CallStatus.finished ∧
    (step cfgI sFinishedErr Event.speechEnd).callStatus = CallStatus.finished ∧
    (step cfgI sFinishedErr Event.tryAgainClick).callStatus = CallStatus.inactive ∧
    (step cfgI sFinishedErr Event.tryAgainClick).messages = [] ∧
    (step cfgI sFinishedErr Event.tryAgainClick).errorMessage = none ∧
    (step cfgI sFinishedErr Event.callInvoke).callStatus = CallStatus.connecting ∧
    (step cfgI sFinishedErr Event.callStart).callStatus = CallStatus.active :=
  C4_finished_terminal_for_engine_events cfgI sFinishedErr (some "boom")
    (finalMsg "user" "late") rfl

/-- C10: an attached session error does not suppress feedback synthesis
when the interview session reaches Finished with a non-empty
transcript — the orchestrator is still invoked and the session
navigates to the feedback page or home; only the
empty-transcript-with-error case stays on the terminal error screen
(the exit effect leaves the state unchanged there). -/
theorem C10_error_not_suppressing (cfg : AgentConfig) (s t : AgentState) (e1 e2 : String)
    (hm : cfg.mode = Mode.interview)
    (hs : s.callStatus = CallStatus.finished) (hne : s.messages ≠ [])
    (herr : s.errorMessage = some e1)
    (ht : t.callStatus = CallStatus.finished) (hte : t.messages = [])
    (hterr : t.errorMessage = some e2) :
    (finishedEffect cfg s).feedbackCalls = s.feedbackCalls + 1 ∧
    ((finishedEffect cfg s).nav = s.nav ++ [Dest.feedbackPage cfg.interviewId] ∨
      (finishedEffect cfg s).nav = s.nav ++ [Dest.home]) ∧
    finishedEffect cfg t = t := by
  have hlen : 0 < s.messages.length := List.length_pos.mpr hne
  refine ⟨?_, ?_, ?_⟩
  · simp [finishedEffect, handleGenerateFeedback, hm, hs, hlen]
  · by_cases hfb : cfg.fbOk
    · left
      simp [finishedEffect, handleGenerateFeedback, feedbackDest, hm, hs, hlen, hfb]
    · right
      simp [finishedEffect, handleGenerateFeedback, feedbackDest, hm, hs, hlen, hfb]
  · simp [finishedEffect, hm, ht, hte, hterr]

/-- Witness for C10 at concrete Finished sessions with an attached
error: one with a non-empty transcript, one with an empty transcript. -/
theorem C10_error_not_suppressing_witness :
    (finishedEffect cfgI sFinishedErrMsgs).feedbackCalls =
      sFinishedErrMsgs.feedbackCalls + 1 ∧
    ((finishedEffect cfgI sFinishedErrMsgs).nav =
        sFinishedErrMsgs.nav ++ [Dest.feedbackPage cfgI.interviewId] ∨
      (finishedEffect cfgI sFinishedErrMsgs).nav = sFinishedErrMsgs.nav ++ [Dest.home]) ∧
    finishedEffect cfgI sFinishedErr = sFinishedErr :=
  C10_error_not_suppressing cfgI sFinishedErrMsgs sFinishedErr "err"
    "The interview session ended unexpectedly. Please try again."
    rfl rfl (by decide) rfl rfl rfl rfl

/-- C2: the feedback synthesis orchestrator never raises: every
collaborator outcome is mapped to a plain result.  A generation (or
validation) failure yields success false with no write attempted and
the store unchanged; a persistence failure after successful generation
yields success false with one write attempted but no record stored (the
generated content is discarded); on success it returns success true
with the fresh feedback id and exactly the one new record; and whenever
the result is a failure, no feedback id is returned and the store is
unchanged. -/
theorem C2_orchestrator_never_throws (req : FeedbackRequest) (g : String → GenOutcome)
    (pf : Bool) (now : String) (store : FeedbackStore) :
    (g (formattedTranscript req.transcript) = GenOutcome.failed →
      createFeedback req g pf now store = ⟨⟨false, none⟩, store, 0⟩) ∧
    (∀ obj, g (formattedTranscript req.transcript) = GenOutcome.ok obj → pf = true →
      createFeedback req g pf now store = ⟨⟨false, none⟩, store, 1⟩) ∧
    (∀ obj, g (formattedTranscript req.transcript) = GenOutcome.ok obj → pf = false →
      createFeedback req g pf now store =
        ⟨⟨true, some store.length⟩,
          store ++ [(store.length, mkFeedbackRecord req obj now)], 1⟩) ∧
    ((createFeedback req g pf now store).result.success = false →
      (createFeedback req g pf now store).store = store ∧
      (createFeedback req g pf now store).result.feedbackId = none) := by
  refine ⟨?_, ?_, ?_, ?_⟩
  · intro h
    simp [createFeedback, h]
  · intro obj h hp
    simp [createFeedback, h, hp]
  · intro obj h hp
    simp [createFeedback, h, hp, addFeedbackRecord]
  · intro hf
    cases hg : g (formattedTranscript req.transcript) with
    | ok obj =>
        cases pf
        · rw [createFeedback] at hf
          simp [hg] at hf
        · simp [createFeedback, hg]
    | failed => simp [createFeedback, hg]

/-- Witness for C2: a failing generation attempts no write; a failing
persistence write after successful generation stores nothing. -/
theorem C2_orchestrator_never_throws_witness :
    createFeedback reqEx (fun _ => GenOutcome.failed) false "2025-01-01" [] =
      ⟨⟨false, none⟩, [], 0⟩ ∧
    createFeedback reqEx (fun _ => GenOutcome.ok objEx) true "2025-01-01" [] =
      ⟨⟨false, none⟩, [], 1⟩ :=
  ⟨(C2_orchestrator_never_throws reqEx (fun _ => GenOutcome.failed) false
      "2025-01-01" []).1 rfl,
    (C2_orchestrator_never_throws reqEx (fun _ => GenOutcome.ok objEx) true
      "2025-01-01" []).2.1 objEx rfl rfl⟩

/-- C9: createFeedback is not idempotent under caller retry — two calls
with the same request whose generations both succeed perform two
independent unconditional inserts, leaving two records with distinct
fresh ids but the same (interviewId, userId) pair; the second insert
happens even though a record for that pair is already in the store. -/
theorem C9_not_idempotent (req : FeedbackRequest) (g g2 : String → GenOutcome)
    (obj obj2 : FeedbackObject) (now now2 : String) (store : FeedbackStore)
    (h1 : g (formattedTranscript req.transcript) = GenOutcome.ok obj)
    (h2 : g2 (formattedTranscript req.transcript) = GenOutcome.ok obj2) :
    (createFeedback req g2 false now2 (createFeedback req g false now store).store).store =
      store ++ [(store.length, mkFeedbackRecord req obj now),
        (store.length + 1, mkFeedbackRecord req obj2 now2)] ∧
    (createFeedback req g false now store).result.success = true ∧
    (createFeedback req g2 false now2
      (createFeedback req g false now store).store).result.success = true ∧
    store.length ≠ store.length + 1 ∧
    (mkFeedbackRecord req obj now).interviewId = req.interviewId ∧
    (mkFeedbackRecord req obj now).userId = req.userId ∧
    (mkFeedbackRecord req obj2 now2).interviewId = req.interviewId ∧
    (mkFeedbackRecord req obj2 now2).userId = req.userId := by
  simp [createFeedback, h1, h2, addFeedbackRecord, mkFeedbackRecord]

/-- Witness for C9 on a concrete request and store. -/
theorem C9_not_idempotent_witness :
    (createFeedback reqEx (fun _ => GenOutcome.ok objEx) false "t2"
      (createFeedback reqEx (fun _ => GenOutcome.ok objEx) false "t1"
        ([] : FeedbackStore)).store).store =
      ([] : FeedbackStore) ++ [(([] : FeedbackStore).length, mkFeedbackRecord reqEx objEx "t1"),
        (([] : FeedbackStore).length + 1, mkFeedbackRecord reqEx objEx "t2")] ∧
    (createFeedback reqEx (fun _ => GenOutcome.ok objEx) false "t1"
      ([] : FeedbackStore)).result.success = true ∧
    (createFeedback reqEx (fun _ => GenOutcome.ok objEx) false "t2"
      (createFeedback reqEx (fun _ => GenOutcome.ok objEx) false "t1"
        ([] : FeedbackStore)).store).result.success = true :=
  ⟨(C9_not_idempotent reqEx (fun _ => GenOutcome.ok objEx) (fun _ => GenOutcome.ok objEx)
      objEx objEx "t1" "t2" ([] : FeedbackStore) rfl rfl).1,
    (C9_not_idempotent reqEx (fun _ => GenOutcome.ok objEx) (fun _ => GenOutcome.ok objEx)
      objEx objEx "t1" "t2" ([] : FeedbackStore) rfl rfl).2.1,
    (C9_not_idempotent reqEx (fun _ => GenOutcome.ok objEx) (fun _ => GenOutcome.ok objEx)
      objEx objEx "t1" "t2" ([] : FeedbackStore) rfl rfl).2.2.1⟩

theorem formattedTranscript_nil : formattedTranscript [] = "" := rfl

theorem formattedTranscript_cons (a : SavedMessage) (tl : List SavedMessage) :
    formattedTranscript (a :: tl) = (renderEntry a ++ "\n") ++ formattedTranscript tl := by
  apply String.ext
  simp [formattedTranscript, renderEntry, String.data_append]

/-- C8 counterexample: the claim that the rendered prompt body equals
the entries joined with newlines fails already on a one-entry
transcript — the code appends a newline after every entry (including
the last), so the rendered body carries a trailing newline the claimed
rendering lacks. -/
theorem C8_counterexample :
    formattedTranscript [⟨"user", "I know React"⟩] ≠
      specPromptBody [⟨"user", "I know React"⟩] := by
  decide

/-- C8 amended: for every non-empty transcript, the prompt body equals
each entry rendered as "- role: text" joined with newlines, followed by
one trailing newline after the last entry. -/
theorem C8_prompt_body_trailing_newline (ts : List SavedMessage) (h : ts ≠ []) :
    formattedTranscript ts = specPromptBody ts ++ "\n" := by
  induction ts with
  | nil => exact absurd rfl h
  | cons a tl ih =>
      cases tl with
      | nil =>
          rw [formattedTranscript_cons, formattedTranscript_nil, String.append_empty]
          rfl
      | cons b tl2 =>
          rw [formattedTranscript_cons, ih (by simp)]
          show (renderEntry a ++ "\n") ++ (specPromptBody (b :: tl2) ++ "\n") =
            (renderEntry a ++ "\n" ++ specPromptBody (b :: tl2)) ++ "\n"
          apply String.ext
          simp [String.data_append]

/-- Witness for the amended C8 on a two-entry transcript. -/
theorem C8_prompt_body_witness :
    formattedTranscript [⟨"user", "I know React"⟩, ⟨"assistant", "Good"⟩] =
      specPromptBody [⟨"user", "I know React"⟩, ⟨"assistant", "Good"⟩] ++ "\n" :=
  C8_prompt_body_trailing_newline
    [⟨"user", "I know React"⟩, ⟨"assistant", "Good"⟩] (by simp)

end MockInterview
